import Mathlib

/-!
Verification development for the `tracer` repository: a shallow embedding of
the GPU resource allocator, acceleration-structure build/refit protocol,
shader-table construction, per-frame command recording and CPU/GPU fence
synchronization, together with theorems settling the specification claims.

Machine integers are modelled as `Nat` with explicit reduction modulo `2^32`
or `2^64` at the points where the source performs a narrowing cast or where
unsigned overflow is possible.
-/

namespace Tracer

/-! ## D3D12 constants used by the source (values from the D3D12 headers) -/

def UINT32_MOD : Nat := 2 ^ 32

def UINT64_MOD : Nat := 2 ^ 64

def D3D12_RAYTRACING_SHADER_TABLE_BYTE_ALIGNMENT : Nat := 64

def D3D12_SHADER_IDENTIFIER_SIZE_IN_BYTES : Nat := 32

def DXGI_FORMAT_UNKNOWN : Nat := 0

def DXGI_FORMAT_R32G32B32_FLOAT : Nat := 6

def DXGI_FORMAT_R16_UINT : Nat := 57

def D3D12_RAYTRACING_ACCELERATION_STRUCTURE_BUILD_FLAG_ALLOW_UPDATE : Nat := 1

def D3D12_RAYTRACING_ACCELERATION_STRUCTURE_BUILD_FLAG_PREFER_FAST_TRACE : Nat := 4

def D3D12_RAYTRACING_ACCELERATION_STRUCTURE_BUILD_FLAG_PERFORM_UPDATE : Nat := 32

/-! ## Typed buffer model (`src/resource.rs`)

`ResourceBuffer` models the mapped CPU view returned by
`UploadResource::get_buffer`: a mutable slice over the buffer's `count`
elements.  The two copy primitives contain fatal assertions
(`assert_eq!(slice.len(), self.data.len())` and
`assert!(offset + slice.len() <= self.data.len())`); a failed assertion is
modelled as `none`. -/

structure ResourceBuffer (α : Type) where
  data : List α
  deriving Repr, DecidableEq

/-- Splice `s` into `d` starting at byte/element index `off`, the effect of
`self.data[offset..offset + slice.len()].copy_from_slice(slice)`. -/
def writeAt (d : List α) (s : List α) (off : Nat) : List α :=
  d.take off ++ s ++ d.drop (off + s.length)

/-- Model of `ResourceBuffer::copy_from_slice` (resource.rs lines 68-71):
asserts the slice length equals the buffer length, then overwrites the whole
buffer. -/
def ResourceBuffer.copy_from_slice (b : ResourceBuffer α) (s : List α) :
    Option (ResourceBuffer α) :=
  if s.length = b.data.length then some ⟨s⟩ else none

/-- Model of `ResourceBuffer::copy_from_slice_at` (resource.rs lines 73-76):
asserts `offset + slice.len() <= self.data.len()`, then splices the slice in
at `offset`. -/
def ResourceBuffer.copy_from_slice_at (b : ResourceBuffer α) (s : List α)
    (off : Nat) : Option (ResourceBuffer α) :=
  if off + s.length ≤ b.data.length then some ⟨writeAt b.data s off⟩ else none

/-- Model of `UploadResource<T>`: the element-typed CPU-visible allocation.
`contents` always has length equal to the element count passed to the
allocator (the allocation is `count * sizeof(T)` bytes). -/
structure UploadResource (α : Type) where
  contents : List α
  deriving Repr, DecidableEq

/-- Model of `UploadResource::len` (resource.rs lines 106-108). -/
def UploadResource.len (r : UploadResource α) : Nat :=
  r.contents.length

/-- Model of `UploadResource::get_buffer` (resource.rs lines 110-120): maps
the resource and returns a view over exactly `self.size` elements
(`std::slice::from_raw_parts_mut(ptr, self.size)`). -/
def UploadResource.get_buffer (r : UploadResource α) : ResourceBuffer α :=
  ⟨r.contents⟩

/-- Model of `ResourceFactory::create_upload_resource` (resource.rs lines
175-191): allocates `count * sizeof(T)` bytes, giving a resource of `count`
elements.  Freshly allocated upload memory is uninitialized; it is modelled
as `count` copies of the default element. -/
def create_upload_resource (α : Type) [Inhabited α] (count : Nat) :
    UploadResource α :=
  ⟨List.replicate count default⟩

/-- Model of `ResourceFactory::create_upload_resource_from_slice`
(resource.rs lines 193-209): allocates for `data.len()` elements, then does
a scoped whole-slice copy. -/
def create_upload_resource_from_slice [Inhabited α] (data : List α) :
    Option (UploadResource α) :=
  ((create_upload_resource α data.length).get_buffer.copy_from_slice
    data).map fun b => ⟨b.data⟩

/-- Claim C6: an upload buffer allocated for `count` elements yields a mapped
view of length exactly `count`; `copy_from_slice` succeeds exactly when the
slice length equals the buffer's element count (a mismatch fails the fatal
assertion); `copy_from_slice_at` succeeds exactly when
`offset + slice.len() <= capacity` (an overflowing copy fails the fatal
assertion rather than silently truncating), and on success splices the slice
in at the offset, preserving the capacity. -/
theorem upload_buffer_copy_contracts (α : Type) [Inhabited α] (count : Nat)
    (b : ResourceBuffer α) (s : List α) (off : Nat) :
    ((create_upload_resource α count).get_buffer.data.length = count ∧
      (create_upload_resource α count).len = count) ∧
    ((b.copy_from_slice s).isSome ↔ s.length = b.data.length) ∧
    ((b.copy_from_slice_at s off).isSome ↔ off + s.length ≤ b.data.length) ∧
    (off + s.length ≤ b.data.length →
      b.copy_from_slice_at s off = some ⟨writeAt b.data s off⟩) := by
  refine ⟨⟨?_, ?_⟩, ?_, ?_, ?_⟩
  · simp [create_upload_resource, UploadResource.get_buffer]
  · simp [create_upload_resource, UploadResource.len]
  · unfold ResourceBuffer.copy_from_slice
    split <;> simp_all
  · unfold ResourceBuffer.copy_from_slice_at
    split <;> simp_all
  · intro h
    unfold ResourceBuffer.copy_from_slice_at
    simp [h]

/-- Witness for C6 at a concrete buffer, slice and offset. -/
theorem upload_buffer_copy_contracts_witness :
    (((create_upload_resource Nat 5).get_buffer.data.length = 5 ∧
      (create_upload_resource Nat 5).len = 5) ∧
    (((⟨[1, 2, 3]⟩ : ResourceBuffer Nat).copy_from_slice [9, 9]).isSome ↔
      ([9, 9] : List Nat).length =
        (⟨[1, 2, 3]⟩ : ResourceBuffer Nat).data.length) ∧
    (((⟨[1, 2, 3]⟩ : ResourceBuffer Nat).copy_from_slice_at [9, 9]
        1).isSome ↔
      1 + ([9, 9] : List Nat).length ≤
        (⟨[1, 2, 3]⟩ : ResourceBuffer Nat).data.length) ∧
    (1 + ([9, 9] : List Nat).length ≤
        (⟨[1, 2, 3]⟩ : ResourceBuffer Nat).data.length →
      (⟨[1, 2, 3]⟩ : ResourceBuffer Nat).copy_from_slice_at [9, 9] 1 =
        some ⟨writeAt (⟨[1, 2, 3]⟩ : ResourceBuffer Nat).data [9, 9] 1⟩)) :=
  upload_buffer_copy_contracts Nat 5 ⟨[1, 2, 3]⟩ [9, 9] 1

/-- Helper: an in-bounds offset copy succeeds and splices the slice in. -/
theorem copy_from_slice_at_eq_some (b : ResourceBuffer α) (s : List α)
    (off : Nat) (h : off + s.length ≤ b.data.length) :
    b.copy_from_slice_at s off = some ⟨writeAt b.data s off⟩ := by
  unfold ResourceBuffer.copy_from_slice_at
  simp [h]

/-! ## Generic lemmas about `writeAt` -/

/-- Read `n` elements starting at index `off` (the read-back of a table
slot). -/
def readRegion (d : List α) (off n : Nat) : List α :=
  (d.drop off).take n

theorem length_writeAt (d s : List α) (off : Nat)
    (h : off + s.length ≤ d.length) :
    (writeAt d s off).length = d.length := by
  simp [writeAt]
  omega

theorem readRegion_writeAt_self (d s : List α) (off : Nat)
    (h : off + s.length ≤ d.length) :
    readRegion (writeAt d s off) off s.length = s := by
  unfold readRegion writeAt
  rw [List.append_assoc, List.drop_left' (by simp; omega), List.take_left]

theorem readRegion_writeAt_below (d s : List α) (off o n : Nat)
    (h : o + n ≤ off) (hoff : off ≤ d.length) :
    readRegion (writeAt d s off) o n = readRegion d o n := by
  unfold readRegion writeAt
  rw [List.append_assoc, List.drop_append_eq_append_drop,
    List.take_append_eq_append_take]
  have hlen : ((d.take off).drop o).length = off - o := by
    simp
    omega
  rw [hlen]
  have hn : n - (off - o) = 0 := by omega
  rw [hn]
  simp [List.drop_take, List.take_take]
  omega

/-! ## Shader table model (`src/pipeline.rs`, `Pipeline::create`, lines
144-169)

The shader-identifier table is a single upload buffer of
`NUM_SHADER_IDS * D3D12_RAYTRACING_SHADER_TABLE_BYTE_ALIGNMENT` bytes.  The
loop over the three export names writes, for slot `i`, the
`D3D12_SHADER_IDENTIFIER_SIZE_IN_BYTES`-byte identifier at offset
`i * D3D12_RAYTRACING_SHADER_TABLE_BYTE_ALIGNMENT` with
`copy_from_slice_at`.  The three opaque identifiers returned by
`GetShaderIdentifier` are parameters; bytes are modelled as `Nat`. -/

def NUM_SHADER_IDS : Nat := 3

/-- Model of the shader-table construction in `Pipeline::create`: allocate
the `3 * 64`-byte upload buffer and write identifier `i` at offset `i * 64`
(the loop body unrolled over the literal three-element name array). -/
def build_shader_table (id0 id1 id2 : List Nat) : Option (ResourceBuffer Nat) := do
  let b := (create_upload_resource Nat
    (NUM_SHADER_IDS * D3D12_RAYTRACING_SHADER_TABLE_BYTE_ALIGNMENT)).get_buffer
  let b ← b.copy_from_slice_at id0 (0 * D3D12_RAYTRACING_SHADER_TABLE_BYTE_ALIGNMENT)
  let b ← b.copy_from_slice_at id1 (1 * D3D12_RAYTRACING_SHADER_TABLE_BYTE_ALIGNMENT)
  let b ← b.copy_from_slice_at id2 (2 * D3D12_RAYTRACING_SHADER_TABLE_BYTE_ALIGNMENT)
  pure b

/-- Read back table slot `i`: the identifier-sized byte range at offset
`i * D3D12_RAYTRACING_SHADER_TABLE_BYTE_ALIGNMENT`. -/
def read_shader_table_slot (b : ResourceBuffer Nat) (i : Nat) : List Nat :=
  readRegion b.data (i * D3D12_RAYTRACING_SHADER_TABLE_BYTE_ALIGNMENT)
    D3D12_SHADER_IDENTIFIER_SIZE_IN_BYTES

/-- Claim C7: the shader table is one buffer of `3 * alignment` bytes holding
exactly three alignment-padded identifier slots, and the identifier written
into slot `i` (at byte offset `i * alignment`) is read back unchanged from
slot `i`, for each of the three slots. -/
theorem shader_table_roundtrip (id0 id1 id2 : List Nat)
    (h0 : id0.length = D3D12_SHADER_IDENTIFIER_SIZE_IN_BYTES)
    (h1 : id1.length = D3D12_SHADER_IDENTIFIER_SIZE_IN_BYTES)
    (h2 : id2.length = D3D12_SHADER_IDENTIFIER_SIZE_IN_BYTES) :
    ∃ b : ResourceBuffer Nat,
      build_shader_table id0 id1 id2 = some b ∧
      b.data.length =
        NUM_SHADER_IDS * D3D12_RAYTRACING_SHADER_TABLE_BYTE_ALIGNMENT ∧
      read_shader_table_slot b 0 = id0 ∧
      read_shader_table_slot b 1 = id1 ∧
      read_shader_table_slot b 2 = id2 := by
  simp only [D3D12_SHADER_IDENTIFIER_SIZE_IN_BYTES] at h0 h1 h2
  set d0 : List Nat := List.replicate 192 default with hd0
  have hd0len : d0.length = 192 := by
    rw [hd0]
    exact List.length_replicate 192 default
  set d1 : List Nat := writeAt d0 id0 0 with hdw1
  have hd1len : d1.length = 192 := by
    rw [hdw1, length_writeAt] <;> omega
  set d2 : List Nat := writeAt d1 id1 64 with hdw2
  have hd2len : d2.length = 192 := by
    rw [hdw2, length_writeAt] <;> omega
  set d3 : List Nat := writeAt d2 id2 128 with hdw3
  have hd3len : d3.length = 192 := by
    rw [hdw3, length_writeAt] <;> omega
  refine ⟨⟨d3⟩, ?_, ?_, ?_, ?_, ?_⟩
  · have hA : D3D12_RAYTRACING_SHADER_TABLE_BYTE_ALIGNMENT = 64 := rfl
    have hb0 : (create_upload_resource Nat
        (NUM_SHADER_IDS * D3D12_RAYTRACING_SHADER_TABLE_BYTE_ALIGNMENT)).get_buffer
        = (⟨d0⟩ : ResourceBuffer Nat) := rfl
    have e1 : ResourceBuffer.copy_from_slice_at ⟨d0⟩ id0
        (0 * D3D12_RAYTRACING_SHADER_TABLE_BYTE_ALIGNMENT) = some ⟨d1⟩ := by
      rw [copy_from_slice_at_eq_some _ _ _ (by simp [hA, h0, hd0len])]
      rfl
    have e2 : ResourceBuffer.copy_from_slice_at ⟨d1⟩ id1
        (1 * D3D12_RAYTRACING_SHADER_TABLE_BYTE_ALIGNMENT) = some ⟨d2⟩ := by
      rw [copy_from_slice_at_eq_some _ _ _ (by simp [hA, h1, hd1len])]
      rfl
    have e3 : ResourceBuffer.copy_from_slice_at ⟨d2⟩ id2
        (2 * D3D12_RAYTRACING_SHADER_TABLE_BYTE_ALIGNMENT) = some ⟨d3⟩ := by
      rw [copy_from_slice_at_eq_some _ _ _ (by simp [hA, h2, hd2len])]
      rfl
    unfold build_shader_table
    rw [hb0]
    simp only [Option.bind_eq_bind, Option.pure_def]
    rw [e1, Option.some_bind, e2, Option.some_bind, e3, Option.some_bind]
  · simpa [NUM_SHADER_IDS, D3D12_RAYTRACING_SHADER_TABLE_BYTE_ALIGNMENT]
      using hd3len
  · show readRegion d3 (0 * 64) 32 = id0
    rw [Nat.zero_mul, hdw3, readRegion_writeAt_below _ _ _ _ _ (by omega)
      (by omega), hdw2, readRegion_writeAt_below _ _ _ _ _ (by omega)
      (by omega), hdw1]
    have := readRegion_writeAt_self d0 id0 0 (by omega)
    rwa [h0] at this
  · show readRegion d3 (1 * 64) 32 = id1
    rw [Nat.one_mul, hdw3, readRegion_writeAt_below _ _ _ _ _ (by omega)
      (by omega), hdw2]
    have := readRegion_writeAt_self d1 id1 64 (by omega)
    rwa [h1] at this
  · show readRegion d3 (2 * 64) 32 = id2
    rw [show (2 : Nat) * 64 = 128 by norm_num, hdw3]
    have := readRegion_writeAt_self d2 id2 128 (by omega)
    rwa [h2] at this

/-- Witness for C7 at three concrete 32-byte identifiers. -/
theorem shader_table_roundtrip_witness :
    (List.replicate 32 (1 : Nat)).length =
        D3D12_SHADER_IDENTIFIER_SIZE_IN_BYTES ∧
    (List.replicate 32 (2 : Nat)).length =
        D3D12_SHADER_IDENTIFIER_SIZE_IN_BYTES ∧
    (List.replicate 32 (3 : Nat)).length =
        D3D12_SHADER_IDENTIFIER_SIZE_IN_BYTES ∧
    ∃ b : ResourceBuffer Nat,
      build_shader_table (List.replicate 32 1) (List.replicate 32 2)
          (List.replicate 32 3) = some b ∧
      b.data.length =
        NUM_SHADER_IDS * D3D12_RAYTRACING_SHADER_TABLE_BYTE_ALIGNMENT ∧
      read_shader_table_slot b 0 = List.replicate 32 1 ∧
      read_shader_table_slot b 1 = List.replicate 32 2 ∧
      read_shader_table_slot b 2 = List.replicate 32 3 :=
  ⟨by decide, by decide, by decide,
    shader_table_roundtrip _ _ _ (by decide) (by decide) (by decide)⟩

/-! ## Dispatch description (`src/pipeline.rs`, `create_rays_description`,
lines 186-212) -/

/-- Model of `D3D12_GPU_VIRTUAL_ADDRESS_RANGE` (and the `_AND_STRIDE`
variant restricted to the fields the source sets). -/
structure GpuVirtualAddressRange where
  StartAddress : Nat
  SizeInBytes : Nat
  deriving Repr, DecidableEq

/-- Model of the fields of `D3D12_RESOURCE_DESC` that
`create_rays_description` reads: `Width` is a `u64`, `Height` a `u32`. -/
structure SurfaceResourceDesc where
  Width : Nat
  Height : Nat
  deriving Repr, DecidableEq

/-- Model of `D3D12_DISPATCH_RAYS_DESC` restricted to the fields the source
sets. -/
structure DispatchRaysDesc where
  RayGenerationShaderRecord : GpuVirtualAddressRange
  MissShaderTable : GpuVirtualAddressRange
  HitGroupTable : GpuVirtualAddressRange
  Width : Nat
  Height : Nat
  Depth : Nat
  deriving Repr, DecidableEq

/-- Model of `Pipeline::create_rays_description`: `shaderIdsAddr` is
`self.shader_ids.get_gpu_virtual_address()` (a `u64`).  Address additions
are `u64` arithmetic; `Width` narrows the `u64` surface width to `u32`
(`surface_desc.Width as u32`). -/
def create_rays_description (shaderIdsAddr : Nat)
    (surface_desc : SurfaceResourceDesc) : DispatchRaysDesc :=
  { RayGenerationShaderRecord :=
      { StartAddress := shaderIdsAddr % UINT64_MOD
        SizeInBytes := D3D12_SHADER_IDENTIFIER_SIZE_IN_BYTES }
    MissShaderTable :=
      { StartAddress :=
          (shaderIdsAddr + D3D12_RAYTRACING_SHADER_TABLE_BYTE_ALIGNMENT) %
            UINT64_MOD
        SizeInBytes := D3D12_SHADER_IDENTIFIER_SIZE_IN_BYTES }
    HitGroupTable :=
      { StartAddress :=
          (shaderIdsAddr + 2 * D3D12_RAYTRACING_SHADER_TABLE_BYTE_ALIGNMENT) %
            UINT64_MOD
        SizeInBytes := D3D12_SHADER_IDENTIFIER_SIZE_IN_BYTES }
    Width := surface_desc.Width % UINT32_MOD
    Height := surface_desc.Height
    Depth := 1 }

/-- Claim C8: for a surface description of width `W` and height `H`, the
dispatch description has `Width = W`, `Height = H`, `Depth = 1`, and the
three shader-table ranges start at `base`, `base + stride`,
`base + 2*stride` (strictly increasing by the fixed slot stride
`D3D12_RAYTRACING_SHADER_TABLE_BYTE_ALIGNMENT`), each of size
`D3D12_SHADER_IDENTIFIER_SIZE_IN_BYTES`. -/
theorem create_rays_description_spec (base W H : Nat)
    (hW : W < UINT32_MOD) (hbase : base + 128 < UINT64_MOD) :
    let d := create_rays_description base ⟨W, H⟩
    d.Width = W ∧ d.Height = H ∧ d.Depth = 1 ∧
    d.RayGenerationShaderRecord.StartAddress = base ∧
    d.MissShaderTable.StartAddress =
      base + D3D12_RAYTRACING_SHADER_TABLE_BYTE_ALIGNMENT ∧
    d.HitGroupTable.StartAddress =
      base + 2 * D3D12_RAYTRACING_SHADER_TABLE_BYTE_ALIGNMENT ∧
    d.RayGenerationShaderRecord.StartAddress <
      d.MissShaderTable.StartAddress ∧
    d.MissShaderTable.StartAddress < d.HitGroupTable.StartAddress ∧
    d.MissShaderTable.StartAddress -
        d.RayGenerationShaderRecord.StartAddress =
      D3D12_RAYTRACING_SHADER_TABLE_BYTE_ALIGNMENT ∧
    d.HitGroupTable.StartAddress - d.MissShaderTable.StartAddress =
      D3D12_RAYTRACING_SHADER_TABLE_BYTE_ALIGNMENT ∧
    d.RayGenerationShaderRecord.SizeInBytes =
      D3D12_SHADER_IDENTIFIER_SIZE_IN_BYTES ∧
    d.MissShaderTable.SizeInBytes = D3D12_SHADER_IDENTIFIER_SIZE_IN_BYTES ∧
    d.HitGroupTable.SizeInBytes = D3D12_SHADER_IDENTIFIER_SIZE_IN_BYTES := by
  have hA : D3D12_RAYTRACING_SHADER_TABLE_BYTE_ALIGNMENT = 64 := rfl
  simp only [create_rays_description, hA]
  simp only [UINT32_MOD, UINT64_MOD] at *
  refine ⟨Nat.mod_eq_of_lt hW, by trivial, by trivial,
    Nat.mod_eq_of_lt (by omega), Nat.mod_eq_of_lt (by omega),
    Nat.mod_eq_of_lt (by omega), ?_⟩
  rw [Nat.mod_eq_of_lt (by omega), Nat.mod_eq_of_lt (by omega),
    Nat.mod_eq_of_lt (by omega)]
  refine ⟨by omega, by omega, by omega, by omega, by trivial, by trivial,
    by trivial⟩

/-- Witness for C8 at the 800 by 600 target of the end-to-end scenario. -/
theorem create_rays_description_spec_witness :
    800 < UINT32_MOD ∧ 4096 + 128 < UINT64_MOD ∧
    (let d := create_rays_description 4096 ⟨800, 600⟩
     d.Width = 800 ∧ d.Height = 600 ∧ d.Depth = 1 ∧
     d.RayGenerationShaderRecord.StartAddress = 4096 ∧
     d.MissShaderTable.StartAddress =
       4096 + D3D12_RAYTRACING_SHADER_TABLE_BYTE_ALIGNMENT ∧
     d.HitGroupTable.StartAddress =
       4096 + 2 * D3D12_RAYTRACING_SHADER_TABLE_BYTE_ALIGNMENT ∧
     d.RayGenerationShaderRecord.StartAddress <
       d.MissShaderTable.StartAddress ∧
     d.MissShaderTable.StartAddress < d.HitGroupTable.StartAddress ∧
     d.MissShaderTable.StartAddress -
         d.RayGenerationShaderRecord.StartAddress =
       D3D12_RAYTRACING_SHADER_TABLE_BYTE_ALIGNMENT ∧
     d.HitGroupTable.StartAddress - d.MissShaderTable.StartAddress =
       D3D12_RAYTRACING_SHADER_TABLE_BYTE_ALIGNMENT ∧
     d.RayGenerationShaderRecord.SizeInBytes =
       D3D12_SHADER_IDENTIFIER_SIZE_IN_BYTES ∧
     d.MissShaderTable.SizeInBytes = D3D12_SHADER_IDENTIFIER_SIZE_IN_BYTES ∧
     d.HitGroupTable.SizeInBytes = D3D12_SHADER_IDENTIFIER_SIZE_IN_BYTES) :=
  ⟨by decide, by norm_num [UINT64_MOD],
    create_rays_description_spec 4096 800 600 (by decide)
      (by norm_num [UINT64_MOD])⟩

/-! ## Fence synchronization (`src/device_interface.rs`,
`DeviceInterface::wait_for_gpu`, lines 76-83)

The fence holds a monotonically increasing `u64` completed value.
`wait_for_gpu` reads `GetCompletedValue()`, signals `completed + 1` from the
queue, and blocks the calling thread (`SetEventOnCompletion`) until the GPU
has signaled that value; on return the fence's completed value is the waited
value. -/

structure FenceState where
  completed : Nat
  deriving Repr, DecidableEq

/-- Model of `wait_for_gpu`: returns the fence state after the blocking wait
together with the value signaled from the queue.  The `+ 1` is `u64`
arithmetic. -/
def wait_for_gpu (f : FenceState) : FenceState × Nat :=
  let fence := (f.completed + 1) % UINT64_MOD
  (⟨fence⟩, fence)

/-- Events recorded by one `wait_for_gpu` call: a queue-side signal of the
fence value followed by the CPU-side blocking wait for that same value. -/
inductive SyncEvent where
  | Signal (value : Nat)
  | WaitCompletion (value : Nat)
  deriving Repr, DecidableEq

/-- The signal/wait pair issued by `wait_for_gpu`, in order. -/
def wait_for_gpu_events (f : FenceState) : List SyncEvent :=
  [SyncEvent.Signal (wait_for_gpu f).2,
    SyncEvent.WaitCompletion (wait_for_gpu f).2]

/-- Claim C4: every `wait_for_gpu` call signals the fence from the queue
with `completed + 1` (strictly greater than the last completed value) and
then blocks until that value is observed, so that on return the completed
value equals the waited value (a full CPU/GPU barrier). -/
theorem wait_for_gpu_spec (f : FenceState)
    (h : f.completed + 1 < UINT64_MOD) :
    (wait_for_gpu f).2 = f.completed + 1 ∧
    f.completed < (wait_for_gpu f).2 ∧
    (wait_for_gpu f).1.completed = (wait_for_gpu f).2 ∧
    wait_for_gpu_events f =
      [SyncEvent.Signal (f.completed + 1),
        SyncEvent.WaitCompletion (f.completed + 1)] := by
  have hv : (wait_for_gpu f).2 = f.completed + 1 := by
    simp [wait_for_gpu, Nat.mod_eq_of_lt h]
  refine ⟨hv, by omega, rfl, ?_⟩
  simp [wait_for_gpu_events, hv]

/-- Witness for C4 at a concrete fence state. -/
theorem wait_for_gpu_spec_witness :
    (⟨41⟩ : FenceState).completed + 1 < UINT64_MOD ∧
    ((wait_for_gpu ⟨41⟩).2 = (⟨41⟩ : FenceState).completed + 1 ∧
      (⟨41⟩ : FenceState).completed < (wait_for_gpu ⟨41⟩).2 ∧
      (wait_for_gpu ⟨41⟩).1.completed = (wait_for_gpu ⟨41⟩).2 ∧
      wait_for_gpu_events ⟨41⟩ =
        [SyncEvent.Signal ((⟨41⟩ : FenceState).completed + 1),
          SyncEvent.WaitCompletion ((⟨41⟩ : FenceState).completed + 1)]) :=
  ⟨by norm_num [UINT64_MOD],
    wait_for_gpu_spec ⟨41⟩ (by norm_num [UINT64_MOD])⟩

/-! ## Abstract GPU allocation

`Alloc` models the device's committed-resource allocator: every
`CreateCommittedResource` call yields a resource with a fresh GPU virtual
address (distinct allocations never alias).  Addresses are abstract tokens;
sizes are recorded as requested. -/

structure GpuResource where
  addr : Nat
  size : Nat
  deriving Repr, DecidableEq

/-- An upload-heap allocation as seen through `UploadResource<T>`: an
address, an element count, and the element size in bytes; the byte size
passed to `create_d3d12_resource` is `count * elemSize`. -/
structure UploadRes where
  addr : Nat
  count : Nat
  elemSize : Nat
  deriving Repr, DecidableEq

def UploadRes.byteSize (r : UploadRes) : Nat :=
  r.count * r.elemSize

structure Alloc where
  next : Nat
  deriving Repr, DecidableEq

/-- Model of `ResourceFactory::create_gpu_resource`. -/
def Alloc.allocGpu (a : Alloc) (size : Nat) : GpuResource × Alloc :=
  (⟨a.next, size⟩, ⟨a.next + 1⟩)

/-- Model of `ResourceFactory::create_upload_resource` at the allocation
level. -/
def Alloc.allocUpload (a : Alloc) (count elemSize : Nat) : UploadRes × Alloc :=
  (⟨a.next, count, elemSize⟩, ⟨a.next + 1⟩)

/-! ## Command and synchronization events

One event per API call the source records on the command list, queue or a
mapped resource, in program order.  `MapBuffer`/`UnmapBuffer` bracket the
lifetime of a `ResourceBuffer` view (`UploadResource::get_buffer` maps;
`ResourceBuffer::drop` unmaps exactly once). -/

inductive ResUsageState where
  | UnorderedAccess
  | CopySource
  | CopyDest
  | PresentState
  deriving Repr, DecidableEq

structure D3D12_GPU_VIRTUAL_ADDRESS_AND_STRIDE where
  StartAddress : Nat
  StrideInBytes : Nat
  deriving Repr, DecidableEq

/-- Model of `D3D12_RAYTRACING_GEOMETRY_TRIANGLES_DESC` as built by
`make_blas` (scene.rs lines 100-123). -/
structure GeometryTrianglesDesc where
  Transform3x4 : Nat
  IndexFormat : Nat
  VertexFormat : Nat
  IndexCount : Nat
  VertexCount : Nat
  IndexBuffer : Nat
  VertexBuffer : D3D12_GPU_VIRTUAL_ADDRESS_AND_STRIDE
  deriving Repr, DecidableEq

inductive AsType where
  | bottomLevel
  | topLevel
  deriving Repr, DecidableEq

/-- The anonymous union in the build inputs: a pointer to geometry
descriptions for a bottom-level build, or the GPU address of the instance
array for a top-level build. -/
inductive BuildInputsData where
  | geometry (g : GeometryTrianglesDesc)
  | instanceDescs (addr : Nat)
  deriving Repr, DecidableEq

/-- Model of `D3D12_BUILD_RAYTRACING_ACCELERATION_STRUCTURE_INPUTS`. -/
structure BuildInputs where
  asType : AsType
  flags : Nat
  numDescs : Nat
  data : BuildInputsData
  deriving Repr, DecidableEq

/-- Model of `D3D12_BUILD_RAYTRACING_ACCELERATION_STRUCTURE_DESC`; a
defaulted source address is 0. -/
structure BuildDesc where
  DestAccelerationStructureData : Nat
  Inputs : BuildInputs
  SourceAccelerationStructureData : Nat
  ScratchAccelerationStructureData : Nat
  deriving Repr, DecidableEq

inductive Event where
  | ResetAllocator
  | ResetList
  | MapBuffer (addr : Nat)
  | UnmapBuffer (addr : Nat)
  | BuildAccelerationStructure (desc : BuildDesc)
  | UavBarrier (addr : Nat)
  | Transition (addr : Nat) (before after : ResUsageState)
  | CopyResource (dst src : Nat)
  | SetPipelineState
  | SetComputeRootSignatureCmd
  | SetComputeRootShaderResourceView (slot addr : Nat)
  | SetDescriptorHeaps
  | SetComputeRootDescriptorTable (slot : Nat)
  | DispatchRaysCmd (desc : DispatchRaysDesc)
  | CloseList
  | ExecuteCommandLists
  | Signal (value : Nat)
  | WaitCompletion (value : Nat)
  | PresentFrame
  deriving Repr, DecidableEq

/-! ## Acceleration-structure builds (`src/scene.rs`) -/

/-- Model of `D3D12_RAYTRACING_ACCELERATION_STRUCTURE_PREBUILD_INFO`, the
device's answer to `GetRaytracingAccelerationStructurePrebuildInfo`; a
parameter of the model. -/
structure PrebuildInfo where
  ScratchDataSizeInBytes : Nat
  ResultDataMaxSizeInBytes : Nat
  UpdateScratchDataSizeInBytes : Nat
  deriving Repr, DecidableEq

structure AsBuildResult where
  accel : GpuResource
  updateScratchSize : Nat
  alloc : Alloc
  fence : FenceState
  events : List Event
  deriving Repr, DecidableEq

/-- Model of `make_acceleration_structure` (scene.rs lines 46-93): query
prebuild sizes, allocate scratch then the structure, record a build whose
destination is the structure and whose source is defaulted (0), submit,
and block on `wait_for_gpu`; returns the structure together with the
refit-specific `UpdateScratchDataSizeInBytes` captured from the prebuild
info. -/
def make_acceleration_structure (prebuild : PrebuildInfo)
    (inputs : BuildInputs) (a : Alloc) (f : FenceState) : AsBuildResult :=
  let (scratch, a1) := a.allocGpu prebuild.ScratchDataSizeInBytes
  let (accel, a2) := a1.allocGpu prebuild.ResultDataMaxSizeInBytes
  let desc : BuildDesc :=
    { DestAccelerationStructureData := accel.addr
      Inputs := inputs
      SourceAccelerationStructureData := 0
      ScratchAccelerationStructureData := scratch.addr }
  let (f1, v) := wait_for_gpu f
  { accel := accel
    updateScratchSize := prebuild.UpdateScratchDataSizeInBytes
    alloc := a2
    fence := f1
    events :=
      [Event.ResetAllocator, Event.ResetList,
        Event.BuildAccelerationStructure desc, Event.CloseList,
        Event.ExecuteCommandLists, Event.Signal v,
        Event.WaitCompletion v] }

/-- Model of the geometry description built by `make_blas` (scene.rs lines
100-123).  The `usize`-to-`u32` casts of the counts reduce modulo `2^32`;
the vertex stride is `size_of::<f32>() * 3` bytes. -/
def make_blas_geometry_desc (vertex_buffer : UploadRes)
    (index_buffer : Option UploadRes) : GeometryTrianglesDesc :=
  { Transform3x4 := 0
    IndexFormat :=
      if index_buffer.isSome then DXGI_FORMAT_R16_UINT
      else DXGI_FORMAT_UNKNOWN
    VertexFormat := DXGI_FORMAT_R32G32B32_FLOAT
    IndexCount :=
      (index_buffer.map fun ib => ib.count % UINT32_MOD).getD 0
    VertexCount := (vertex_buffer.count / 3) % UINT32_MOD
    IndexBuffer := (index_buffer.map fun ib => ib.addr).getD 0
    VertexBuffer :=
      { StartAddress := vertex_buffer.addr
        StrideInBytes := 4 * 3 } }

/-- Model of `make_blas` (scene.rs lines 95-138): bottom-level inputs over
one triangle geometry with `PREFER_FAST_TRACE`. -/
def make_blas (vertex_buffer : UploadRes) (index_buffer : Option UploadRes)
    (prebuild : PrebuildInfo) (a : Alloc) (f : FenceState) : AsBuildResult :=
  let inputs : BuildInputs :=
    { asType := AsType.bottomLevel
      flags := D3D12_RAYTRACING_ACCELERATION_STRUCTURE_BUILD_FLAG_PREFER_FAST_TRACE
      numDescs := 1
      data := BuildInputsData.geometry
        (make_blas_geometry_desc vertex_buffer index_buffer) }
  make_acceleration_structure prebuild inputs a f

/-- Model of `make_tlas` (scene.rs lines 140-155): top-level inputs over the
instance array with `ALLOW_UPDATE`. -/
def make_tlas (instances : UploadRes) (prebuild : PrebuildInfo) (a : Alloc)
    (f : FenceState) : AsBuildResult :=
  let inputs : BuildInputs :=
    { asType := AsType.topLevel
      flags := D3D12_RAYTRACING_ACCELERATION_STRUCTURE_BUILD_FLAG_ALLOW_UPDATE
      numDescs := instances.count % UINT32_MOD
      data := BuildInputsData.instanceDescs instances.addr }
  make_acceleration_structure prebuild inputs a f

/-! ## Scene (`src/scene.rs`) -/

def NUM_INSTANCES : Nat := 3

/-- Model of `D3D12_RAYTRACING_INSTANCE_DESC` restricted to the fields the
claims are about: the packed `u32` bitfield (`InstanceID` in bits 0..23,
`InstanceMask` in bits 24..31) and the referenced acceleration structure's
GPU address.  The 3x4 `Transform` (floating-point, animated from
`GetTickCount` by `update_transforms`) is outside the model; no claim
depends on its value. -/
structure InstanceDesc where
  bitfield1 : Nat
  AccelerationStructure : Nat
  deriving Repr, DecidableEq

/-- The instance-initialization loop of `Scene::build` (scene.rs lines
208-218): descriptor `i` has `_bitfield1 = i | (1 << 24)` and references
the cube BLAS for `i == 0`, the quad BLAS otherwise. -/
def initInstances (cube_blas quad_blas : GpuResource) : List InstanceDesc :=
  (List.range NUM_INSTANCES).map fun i =>
    { bitfield1 := (Nat.lor i (1 <<< 24)) % UINT32_MOD
      AccelerationStructure :=
        if i = 0 then cube_blas.addr else quad_blas.addr }

/-- Model of the `Scene` struct: the buffers it owns, the TLAS with its
dedicated refit scratch, and the instance upload buffer with its current
descriptor contents.  The `Instances` self-referencing struct additionally
holds a live mapped view of the instance buffer, visible in the event
trace as an unmatched `MapBuffer`. -/
structure Scene where
  quad_buffer : UploadRes
  cube_buffer : UploadRes
  cube_index_buffer : UploadRes
  quad_blas : GpuResource
  cube_blas : GpuResource
  tlas : GpuResource
  tlas_scratch : GpuResource
  instances : UploadRes
  instancesData : List InstanceDesc
  deriving Repr, DecidableEq

/-- The three device prebuild answers `Scene::build` depends on. -/
structure ScenePrebuilds where
  quad : PrebuildInfo
  cube : PrebuildInfo
  tlas : PrebuildInfo
  deriving Repr, DecidableEq

structure SceneBuildResult where
  scene : Scene
  alloc : Alloc
  fence : FenceState
  events : List Event
  deriving Repr, DecidableEq

/-- Model of `Scene::build` (scene.rs lines 181-247), in source order:
upload the quad (18 f32), cube (24 f32) and cube-index (36 u16) buffers
(each `create_upload_resource_from_slice` performs a scoped map/copy/unmap);
build the two BLASes; allocate the 3-element instance buffer; in a scope,
map it, write the three descriptors and the initial transforms, and unmap;
build the TLAS; allocate the refit scratch sized from the TLAS
`UpdateScratchDataSizeInBytes`; finally construct the self-referencing
`Instances` holder, whose `buffer_builder` maps the instance buffer again
and keeps that view live (no matching unmap). -/
def Scene.build (p : ScenePrebuilds) (a0 : Alloc) (f0 : FenceState) :
    SceneBuildResult :=
  let (quad_buffer, a1) := a0.allocUpload 18 4
  let (cube_buffer, a2) := a1.allocUpload 24 4
  let (cube_index_buffer, a3) := a2.allocUpload 36 2
  let rQuad := make_blas quad_buffer none p.quad a3 f0
  let rCube := make_blas cube_buffer (some cube_index_buffer) p.cube
    rQuad.alloc rQuad.fence
  let (instances, a4) := rCube.alloc.allocUpload NUM_INSTANCES 64
  let instancesData := initInstances rCube.accel rQuad.accel
  let rTlas := make_tlas instances p.tlas a4 rCube.fence
  let (tlas_scratch, a5) := rTlas.alloc.allocGpu rTlas.updateScratchSize
  { scene :=
      { quad_buffer := quad_buffer
        cube_buffer := cube_buffer
        cube_index_buffer := cube_index_buffer
        quad_blas := rQuad.accel
        cube_blas := rCube.accel
        tlas := rTlas.accel
        tlas_scratch := tlas_scratch
        instances := instances
        instancesData := instancesData }
    alloc := a5
    fence := rTlas.fence
    events :=
      [Event.MapBuffer quad_buffer.addr, Event.UnmapBuffer quad_buffer.addr]
      ++ [Event.MapBuffer cube_buffer.addr,
          Event.UnmapBuffer cube_buffer.addr]
      ++ [Event.MapBuffer cube_index_buffer.addr,
          Event.UnmapBuffer cube_index_buffer.addr]
      ++ rQuad.events
      ++ rCube.events
      ++ [Event.MapBuffer instances.addr, Event.UnmapBuffer instances.addr]
      ++ rTlas.events
      ++ [Event.MapBuffer instances.addr] }

/-- The refit build description recorded by `Scene::update` (scene.rs lines
254-268): destination and source are both the TLAS's own address, the
scratch is the dedicated refit scratch buffer, the inputs are a top-level
`PERFORM_UPDATE` over the same instance array. -/
def Scene.update_desc (s : Scene) : BuildDesc :=
  { DestAccelerationStructureData := s.tlas.addr
    Inputs :=
      { asType := AsType.topLevel
        flags := D3D12_RAYTRACING_ACCELERATION_STRUCTURE_BUILD_FLAG_PERFORM_UPDATE
        numDescs := NUM_INSTANCES
        data := BuildInputsData.instanceDescs s.instances.addr }
    SourceAccelerationStructureData := s.tlas.addr
    ScratchAccelerationStructureData := s.tlas_scratch.addr }

/-- Model of `Scene::update` (scene.rs lines 249-286): write the animated
transforms through the stored mapped view (`with_buffer_mut`; no map or
unmap occurs), then record the refit build immediately followed by a UAV
barrier on the TLAS. -/
def Scene.update (s : Scene) : List Event :=
  [Event.BuildAccelerationStructure (Scene.update_desc s),
    Event.UavBarrier s.tlas.addr]

/-- Events of dropping the `Scene`: the self-referencing `Instances` holder
drops its stored `ResourceBuffer`, whose `Drop` impl unmaps the instance
buffer exactly once (resource.rs lines 79-85). -/
def Scene.drop_events (s : Scene) : List Event :=
  [Event.UnmapBuffer s.instances.addr]

/-! ## Presentation (`src/surface.rs`) -/

/-- Model of the `barrier` helper (surface.rs lines 14-35): a transition
resource barrier recorded on the command list. -/
def barrier (resource : Nat) (before after : ResUsageState) : Event :=
  Event.Transition resource before after

/-- The commands `Surface::present` records on the command list (surface.rs
lines 169-199), in source order. -/
def Surface.present_commands (target back_buffer : Nat) : List Event :=
  [barrier target ResUsageState.UnorderedAccess ResUsageState.CopySource,
    barrier back_buffer ResUsageState.PresentState ResUsageState.CopyDest,
    Event.CopyResource back_buffer target,
    barrier back_buffer ResUsageState.CopyDest ResUsageState.PresentState,
    barrier target ResUsageState.CopySource ResUsageState.UnorderedAccess]

/-- Model of `Surface::present` (surface.rs lines 160-209): record the five
commands, close and submit the list, wait for the GPU, then present the
swap chain. -/
def Surface.present (target back_buffer : Nat) (f : FenceState) :
    List Event × FenceState :=
  let (f1, v) := wait_for_gpu f
  (Surface.present_commands target back_buffer
    ++ [Event.CloseList, Event.ExecuteCommandLists, Event.Signal v,
      Event.WaitCompletion v, Event.PresentFrame], f1)

/-! ## Frame loop (`src/main.rs`) -/

/-- Model of `render` (main.rs lines 22-38): `scene.update`, then
`pipeline.bind` (pipeline state + compute root signature), `scene.bind`
(root SRV 1 = TLAS address), `surface.bind` (descriptor heaps + root table
0), the raytracing dispatch sized from the surface description, the
present sequence, and a final `wait_for_gpu`. -/
def render (s : Scene) (shaderIdsAddr target back_buffer : Nat)
    (surface_desc : SurfaceResourceDesc) (f : FenceState) :
    List Event × FenceState :=
  let (presentEvents, f1) := Surface.present target back_buffer f
  let (f2, v2) := wait_for_gpu f1
  (Scene.update s
    ++ [Event.SetPipelineState, Event.SetComputeRootSignatureCmd]
    ++ [Event.SetComputeRootShaderResourceView 1 s.tlas.addr]
    ++ [Event.SetDescriptorHeaps, Event.SetComputeRootDescriptorTable 0]
    ++ [Event.DispatchRaysCmd
        (create_rays_description shaderIdsAddr surface_desc)]
    ++ presentEvents
    ++ [Event.Signal v2, Event.WaitCompletion v2], f2)

/-- Model of one `Event::AboutToWait` frame tick (main.rs lines 65-76):
reset the command allocator and list, call `scene.update`, then call
`render` (which itself calls `scene.update` again first). -/
def frame_events (s : Scene) (shaderIdsAddr target back_buffer : Nat)
    (surface_desc : SurfaceResourceDesc) (f : FenceState) :
    List Event × FenceState :=
  let (renderEvents, f1) :=
    render s shaderIdsAddr target back_buffer surface_desc f
  ([Event.ResetAllocator, Event.ResetList]
    ++ Scene.update s
    ++ renderEvents, f1)

/-! ## Trace analysis functions -/

/-- A top-level update build (`PERFORM_UPDATE` flag): the TLAS refit. -/
def Event.isRefitBuild : Event → Bool
  | Event.BuildAccelerationStructure d =>
      d.Inputs.asType == AsType.topLevel &&
      d.Inputs.flags ==
        D3D12_RAYTRACING_ACCELERATION_STRUCTURE_BUILD_FLAG_PERFORM_UPDATE
  | _ => false

def Event.isDispatch : Event → Bool
  | Event.DispatchRaysCmd _ => true
  | _ => false

def countRefits (t : List Event) : Nat :=
  t.countP Event.isRefitBuild

/-- The events recorded before the raytracing dispatch. -/
def untilDispatch (t : List Event) : List Event :=
  t.takeWhile fun e => !e.isDispatch

/-- Does this build description read buffer `a`?  A top-level build reads
the instance array; a bottom-level build reads the vertex buffer and, when
present, the index buffer. -/
def BuildDesc.readsAddr (d : BuildDesc) (a : Nat) : Bool :=
  match d.Inputs.data with
  | BuildInputsData.instanceDescs ia => ia == a
  | BuildInputsData.geometry g =>
      g.VertexBuffer.StartAddress == a || g.IndexBuffer == a

/-- Number of `MapBuffer a` events in the trace. -/
def countMap (t : List Event) (a : Nat) : Nat :=
  t.countP fun e => e == Event.MapBuffer a

/-- Number of `UnmapBuffer a` events in the trace. -/
def countUnmap (t : List Event) (a : Nat) : Nat :=
  t.countP fun e => e == Event.UnmapBuffer a

/-- Scan the trace tracking the map depth of buffer `a`; `true` exactly when
some acceleration-structure build that reads `a` is recorded while a mapped
view of `a` is live. -/
def buildsReadingWhileMapped (a : Nat) (depth : Nat) : List Event → Bool
  | [] => false
  | e :: rest =>
    match e with
    | Event.MapBuffer b =>
        buildsReadingWhileMapped a (if b == a then depth + 1 else depth) rest
    | Event.UnmapBuffer b =>
        buildsReadingWhileMapped a (if b == a then depth - 1 else depth) rest
    | Event.BuildAccelerationStructure d =>
        (decide (0 < depth) && d.readsAddr a) ||
          buildsReadingWhileMapped a depth rest
    | _ => buildsReadingWhileMapped a depth rest

/-- Run a recorded command sequence against the resource-state machine of
the render target and the back buffer: each transition barrier must name
one of the two resources and declare the resource's current state as its
before-state; the copy requires the source in `CopySource` and the
destination in `CopyDest`.  Returns the final pair of states, or `none` on
any invalid command. -/
def runPresentStates (target back_buffer : Nat) :
    List Event → ResUsageState → ResUsageState →
      Option (ResUsageState × ResUsageState)
  | [], ts, tb => some (ts, tb)
  | Event.Transition a b c :: rest, ts, tb =>
    if a == target then
      if b == ts then runPresentStates target back_buffer rest c tb else none
    else if a == back_buffer then
      if b == tb then runPresentStates target back_buffer rest ts c else none
    else none
  | Event.CopyResource dst src :: rest, ts, tb =>
    if src == target && dst == back_buffer &&
        ts == ResUsageState.CopySource && tb == ResUsageState.CopyDest then
      runPresentStates target back_buffer rest ts tb
    else none
  | _ :: _, _, _ => none

/-- Claim C5: `present()` records exactly the five-command sequence, in this
order: target `UnorderedAccess → CopySource`; back buffer
`Present → CopyDest`; copy the target into the back buffer; back buffer
`CopyDest → Present`; target `CopySource → UnorderedAccess`.  The sequence
is a valid run of the resource-state machine from the steady state (target
writable, back buffer presentable) and restores that steady state, and it
is exactly the prefix of `present`'s events that is recorded on the command
list before it is closed and submitted. -/
theorem present_records_exact_sequence (target back_buffer : Nat)
    (f : FenceState) (h : target ≠ back_buffer) :
    Surface.present_commands target back_buffer =
      [Event.Transition target ResUsageState.UnorderedAccess
          ResUsageState.CopySource,
        Event.Transition back_buffer ResUsageState.PresentState
          ResUsageState.CopyDest,
        Event.CopyResource back_buffer target,
        Event.Transition back_buffer ResUsageState.CopyDest
          ResUsageState.PresentState,
        Event.Transition target ResUsageState.CopySource
          ResUsageState.UnorderedAccess] ∧
    (Surface.present target back_buffer f).1.take 5 =
      Surface.present_commands target back_buffer ∧
    runPresentStates target back_buffer
        (Surface.present_commands target back_buffer)
        ResUsageState.UnorderedAccess ResUsageState.PresentState =
      some (ResUsageState.UnorderedAccess, ResUsageState.PresentState) := by
  have htt : (target == target) = true := by simp
  have hbb : (back_buffer == back_buffer) = true := by simp
  have hbt : (back_buffer == target) = false := by
    simp only [beq_eq_false_iff_ne, ne_eq]
    exact fun e => h e.symm
  refine ⟨rfl, rfl, ?_⟩
  simp only [Surface.present_commands, barrier, runPresentStates, htt, hbb,
    hbt]
  simp

/-- Witness for C5 at concrete distinct resources. -/
theorem present_records_exact_sequence_witness :
    (100 : Nat) ≠ 101 ∧
    (Surface.present_commands 100 101 =
      [Event.Transition 100 ResUsageState.UnorderedAccess
          ResUsageState.CopySource,
        Event.Transition 101 ResUsageState.PresentState
          ResUsageState.CopyDest,
        Event.CopyResource 101 100,
        Event.Transition 101 ResUsageState.CopyDest
          ResUsageState.PresentState,
        Event.Transition 100 ResUsageState.CopySource
          ResUsageState.UnorderedAccess] ∧
    (Surface.present 100 101 ⟨0⟩).1.take 5 =
      Surface.present_commands 100 101 ∧
    runPresentStates 100 101 (Surface.present_commands 100 101)
        ResUsageState.UnorderedAccess ResUsageState.PresentState =
      some (ResUsageState.UnorderedAccess, ResUsageState.PresentState)) :=
  ⟨by decide, present_records_exact_sequence 100 101 ⟨0⟩ (by decide)⟩

/-- Claim C3: `Scene::update` records the refit in place: the build
description's source address equals its destination address and both equal
the TLAS's own GPU address; the scratch address is that of the dedicated
refit scratch buffer, which was sized from `UpdateScratchDataSizeInBytes`
of the TLAS prebuild info obtained once at initialization (not the
full-build `ScratchDataSizeInBytes`); the inputs carry the
`PERFORM_UPDATE` flag; and the recorded command sequence is the build
immediately followed by a UAV barrier on the TLAS. -/
theorem scene_update_refit_in_place (p : ScenePrebuilds) (a0 : Alloc)
    (f0 : FenceState) :
    let r := Scene.build p a0 f0
    let d := Scene.update_desc r.scene
    d.SourceAccelerationStructureData =
      d.DestAccelerationStructureData ∧
    d.DestAccelerationStructureData = r.scene.tlas.addr ∧
    d.ScratchAccelerationStructureData = r.scene.tlas_scratch.addr ∧
    r.scene.tlas_scratch.size = p.tlas.UpdateScratchDataSizeInBytes ∧
    d.Inputs.flags =
      D3D12_RAYTRACING_ACCELERATION_STRUCTURE_BUILD_FLAG_PERFORM_UPDATE ∧
    d.Inputs.asType = AsType.topLevel ∧
    Scene.update r.scene =
      [Event.BuildAccelerationStructure d,
        Event.UavBarrier r.scene.tlas.addr] :=
  ⟨rfl, rfl, rfl, rfl, rfl, rfl, rfl⟩

/-- Claim C9: after `Scene::build`, the instance buffer holds exactly three
descriptors; descriptor `i` carries instance index `i` in the low 24 bits
of the bitfield and instance mask 1 in bits 24..31; descriptor 0 references
the cube BLAS's GPU address and descriptors 1 and 2 both reference the quad
BLAS's GPU address. -/
theorem scene_build_instances (p : ScenePrebuilds) (a0 : Alloc)
    (f0 : FenceState) :
    let s := (Scene.build p a0 f0).scene
    s.instancesData.length = NUM_INSTANCES ∧
    s.instances.count = NUM_INSTANCES ∧
    (s.instancesData.map fun d => d.bitfield1 % 2 ^ 24) = [0, 1, 2] ∧
    (s.instancesData.map fun d => d.bitfield1 / 2 ^ 24 % 2 ^ 8) =
      [1, 1, 1] ∧
    (s.instancesData.map InstanceDesc.AccelerationStructure) =
      [s.cube_blas.addr, s.quad_blas.addr, s.quad_blas.addr] := by
  have hb : ((Scene.build p a0 f0).scene.instancesData.map
      InstanceDesc.bitfield1) = [16777216, 16777217, 16777218] := rfl
  refine ⟨rfl, rfl, ?_, ?_, rfl⟩
  · show List.map ((fun x => x % 2 ^ 24) ∘ InstanceDesc.bitfield1)
      (Scene.build p a0 f0).scene.instancesData = [0, 1, 2]
    rw [← List.map_map, hb]
    decide
  · show List.map ((fun x => x / 2 ^ 24 % 2 ^ 8) ∘ InstanceDesc.bitfield1)
      (Scene.build p a0 f0).scene.instancesData = [1, 1, 1]
    rw [← List.map_map, hb]
    decide

/-- Claim C10: the geometry description recorded by `make_blas` has
`VertexCount = vertex_buffer.len() / 3`, a vertex stride of
`3 * sizeof(f32) = 12` bytes and vertex format `R32G32B32_FLOAT`; without
an index buffer, `IndexFormat` is `UNKNOWN` (0), `IndexCount` is 0 and the
index-buffer address is 0; with an index buffer, `IndexFormat` is
`R16_UINT` and `IndexCount` equals the index buffer's element count. -/
theorem make_blas_geometry_spec (vb ib : UploadRes)
    (hv : vb.count / 3 < UINT32_MOD) (hi : ib.count < UINT32_MOD) :
    (make_blas_geometry_desc vb none).VertexCount = vb.count / 3 ∧
    (make_blas_geometry_desc vb none).VertexBuffer.StrideInBytes = 12 ∧
    (make_blas_geometry_desc vb none).VertexBuffer.StartAddress = vb.addr ∧
    (make_blas_geometry_desc vb none).VertexFormat =
      DXGI_FORMAT_R32G32B32_FLOAT ∧
    (make_blas_geometry_desc vb none).IndexFormat = DXGI_FORMAT_UNKNOWN ∧
    (make_blas_geometry_desc vb none).IndexCount = 0 ∧
    (make_blas_geometry_desc vb none).IndexBuffer = 0 ∧
    (make_blas_geometry_desc vb (some ib)).VertexCount = vb.count / 3 ∧
    (make_blas_geometry_desc vb (some ib)).VertexBuffer.StrideInBytes =
      12 ∧
    (make_blas_geometry_desc vb (some ib)).VertexBuffer.StartAddress =
      vb.addr ∧
    (make_blas_geometry_desc vb (some ib)).VertexFormat =
      DXGI_FORMAT_R32G32B32_FLOAT ∧
    (make_blas_geometry_desc vb (some ib)).IndexFormat =
      DXGI_FORMAT_R16_UINT ∧
    (make_blas_geometry_desc vb (some ib)).IndexCount = ib.count ∧
    (make_blas_geometry_desc vb (some ib)).IndexBuffer = ib.addr := by
  unfold make_blas_geometry_desc
  refine ⟨Nat.mod_eq_of_lt hv, rfl, rfl, rfl, rfl, rfl, rfl,
    Nat.mod_eq_of_lt hv, rfl, rfl, rfl, rfl, Nat.mod_eq_of_lt hi, rfl⟩

/-- Witness for C10 at the quad vertex buffer and cube index buffer sizes
used by `Scene::build`. -/
theorem make_blas_geometry_spec_witness :
    (⟨1, 18, 4⟩ : UploadRes).count / 3 < UINT32_MOD ∧
    (⟨3, 36, 2⟩ : UploadRes).count < UINT32_MOD ∧
    ((make_blas_geometry_desc ⟨1, 18, 4⟩ none).VertexCount = 6 ∧
      (make_blas_geometry_desc ⟨1, 18, 4⟩ (some ⟨3, 36, 2⟩)).IndexCount =
        36) := by
  have h := make_blas_geometry_spec ⟨1, 18, 4⟩ ⟨3, 36, 2⟩
    (by norm_num [UINT32_MOD]) (by norm_num [UINT32_MOD])
  exact ⟨by norm_num [UINT32_MOD], by norm_num [UINT32_MOD],
    h.1, h.2.2.2.2.2.2.2.2.2.2.2.2.1⟩

/-- Claim C2 evaluation: in every `AboutToWait` frame tick, the recorded
command stream between the command-list reset and the raytracing dispatch
contains exactly two top-level refit builds, not one — `scene.update` is
called once directly in the event arm (main.rs line 74) and a second time
inside `render` (main.rs line 28). -/
theorem frame_tick_records_two_refits (p : ScenePrebuilds) (a0 : Alloc)
    (f0 : FenceState) (shaderIdsAddr target back_buffer : Nat)
    (sd : SurfaceResourceDesc) (f : FenceState) :
    let s := (Scene.build p a0 f0).scene
    let t := (frame_events s shaderIdsAddr target back_buffer sd f).1
    countRefits (untilDispatch t) = 2 ∧ countRefits t = 2 :=
  ⟨rfl, rfl⟩

/-! ## The instance-buffer mapped view across frames (claim C1)

Concrete program instance: device prebuild answers are arbitrary concrete
values, the allocator starts at address 1, the fence at 0; one frame tick
follows `Scene::build`. -/

def exPrebuilds : ScenePrebuilds :=
  ⟨⟨100, 200, 50⟩, ⟨300, 400, 60⟩, ⟨500, 600, 70⟩⟩

def exBuild : SceneBuildResult :=
  Scene.build exPrebuilds ⟨1⟩ ⟨0⟩

/-- The trace of `Scene::build` followed by one frame tick. -/
def exTrace : List Event :=
  exBuild.events ++
    (frame_events exBuild.scene 900 100 101 ⟨800, 600⟩ exBuild.fence).1

/-- Counterexample to claim C1: in the concrete program trace, a top-level
build that reads the instance buffer (the refit recorded by
`Scene::update`) is recorded while a mapped view of the instance buffer is
live — the view created by the self-referencing `Instances` holder at the
end of `Scene::build` is held across the frame's command recording. -/
theorem instance_view_live_across_refit_recording :
    buildsReadingWhileMapped exBuild.scene.instances.addr 0 exTrace =
      true := by decide

/-- Claim C1 as amended: every mapped view is released exactly once (the
scoped views inside `Scene::build` before the next GPU submission, the
stored instance view on `Scene` drop); no acceleration-structure build
reads the three geometry buffers while they are mapped, and the initial
TLAS build reads the instance buffer only after its scoped
initialization view was unmapped; however the instance buffer's second,
persistent view (held by the self-referencing `Instances` struct) stays
live across `Scene::update`'s recording of the TLAS refit that reads the
buffer in every frame. -/
theorem mapped_view_scoping (p : ScenePrebuilds) (f0 : FenceState)
    (shaderIdsAddr target back_buffer : Nat) (sd : SurfaceResourceDesc) :
    let r := Scene.build p ⟨1⟩ f0
    let t := r.events ++
      (frame_events r.scene shaderIdsAddr target back_buffer sd r.fence).1
    let full := t ++ Scene.drop_events r.scene
    countMap full r.scene.quad_buffer.addr = 1 ∧
    countUnmap full r.scene.quad_buffer.addr = 1 ∧
    countMap full r.scene.cube_buffer.addr = 1 ∧
    countUnmap full r.scene.cube_buffer.addr = 1 ∧
    countMap full r.scene.cube_index_buffer.addr = 1 ∧
    countUnmap full r.scene.cube_index_buffer.addr = 1 ∧
    buildsReadingWhileMapped r.scene.quad_buffer.addr 0 full = false ∧
    buildsReadingWhileMapped r.scene.cube_buffer.addr 0 full = false ∧
    buildsReadingWhileMapped r.scene.cube_index_buffer.addr 0 full =
      false ∧
    countMap full r.scene.instances.addr = 2 ∧
    countUnmap full r.scene.instances.addr = 2 ∧
    buildsReadingWhileMapped r.scene.instances.addr 0 r.events = false ∧
    buildsReadingWhileMapped r.scene.instances.addr 0 t = true :=
  ⟨rfl, rfl, rfl, rfl, rfl, rfl, rfl, rfl, rfl, rfl, rfl, rfl, rfl⟩

end Tracer
